import Mathlib

/-!
Verification of the MySQL driver of kine (`pkg/drivers/mysql/mysql.go`)
against its natural-language specification.

The development shallowly embeds the driver: the Go functions become Lean
functions, the SQL statements the driver builds become both the exact
strings the Go code produces and structured/relational readings of those
statements, and the `database/sql` execution done by `setup` becomes
explicit threading of an abstract executor `String → Option GoErr`.
-/

set_option autoImplicit false

namespace KineMySQL

/-! Error model.

Go errors reaching this driver are either a `*mysql.MySQLError` (which
carries a numeric code) or some other non-nil error (of which only the
`Error()` message is observable here); a Go `nil` error is `Option.none`.
-/

/-- Model of a non-nil Go `error` value as seen by the MySQL driver:
either a `*mysql.MySQLError` with its `Number` and message, or any other
error, of which only its `Error()` message is observed. -/
inductive GoErr where
  | mysqlError (number : Nat) (message : String)
  | other (message : String)
  deriving DecidableEq, Repr

/-- Modelled from the spec: `server.ErrKeyExists`, the domain `KeyExists`
error (declared in `pkg/server`, which is not part of the sources here).
Only its identity matters to the claims; its message is immaterial and
modelled as an opaque constant. -/
def serverErrKeyExists : GoErr := GoErr.other "key exists"

/-- Embedding of `dialect.TranslateErr` (mysql.go lines 112-117):
a `*mysql.MySQLError` whose `Number` is 1062 becomes
`server.ErrKeyExists`; every other value, including nil, is returned
unchanged. -/
def translateErr : Option GoErr → Option GoErr
  | some (GoErr.mysqlError n m) =>
    if n = 1062 then some serverErrKeyExists else some (GoErr.mysqlError n m)
  | e => e

/-- Embedding of `dialect.ErrCode` (mysql.go lines 118-126): nil maps to
the empty string, a `*mysql.MySQLError` to `fmt.Sprint(err.Number)` (its
decimal representation), and any other error to `err.Error()`. -/
def errCode : Option GoErr → String
  | none => ""
  | some (GoErr.mysqlError n _) => Nat.repr n
  | some (GoErr.other m) => m

/-! DSN preparation (`prepareDSN`, mysql.go lines 217-243).

`mysql.ParseDSN` and `Config.FormatDSN` belong to the external
`go-sql-driver/mysql` library, so the parsed DSN is modelled abstractly:
a record with the fields `prepareDSN` touches (`DBName`, `TLSConfig`)
plus an opaque remainder standing for every field it leaves alone.
-/

/-- Constant `defaultUnixDSN` (mysql.go line 23). -/
def defaultUnixDSN : String := "root@unix(/var/run/mysqld/mysqld.sock)/"

/-- Constant `defaultHostDSN` (mysql.go line 24). -/
def defaultHostDSN : String := "root@tcp(127.0.0.1)/"

/-- Abstraction of the external `mysql.Config` produced by
`mysql.ParseDSN`: the database name, the registered TLS configuration
name, and an opaque remainder for all fields `prepareDSN` never touches. -/
structure MySQLConfig where
  dbName : String
  tlsConfigName : String
  rest : String
  deriving DecidableEq, Repr

/-- Embedding of the first step of `prepareDSN` (mysql.go lines 218-223):
an empty data source name is replaced by `defaultUnixDSN`, or by
`defaultHostDSN` when a TLS configuration is supplied. -/
def chooseDataSourceName (dataSourceName : String) (hasTLS : Bool) : String :=
  if dataSourceName.length = 0 then
    if hasTLS then defaultHostDSN else defaultUnixDSN
  else dataSourceName

/-- Embedding of the rest of `prepareDSN` (mysql.go lines 228-242), acting
on the parsed configuration: with TLS the config named "kine" is attached,
and the database name defaults to "kubernetes" when the DSN named none. -/
def prepareDSNConfig (hasTLS : Bool) (config : MySQLConfig) : MySQLConfig :=
  let config := if hasTLS then { config with tlsConfigName := "kine" } else config
  let dbName := "kubernetes"
  let dbName := if 0 < config.dbName.length then config.dbName else dbName
  { config with dbName := dbName }

/-! Log-table data model and the compaction statement. -/

/-- Row of the kine log table, one field per column of the schema created
by `getSchema` (mysql.go lines 29-41). Unsigned 64-bit columns are `Nat`,
signed `INTEGER` columns are `Int`, and the `MEDIUMBLOB` columns are kept
as opaque strings. -/
structure Row where
  id : Nat
  name : String
  created : Int
  deleted : Int
  create_revision : Nat
  prev_revision : Nat
  lease : Int
  value : String
  old_value : String
  deriving DecidableEq, Repr

/-- Relational reading of the derived table `ks` of `dialect.CompactSQL`
(mysql.go lines 95-111): id `i` is selected when it is the
`prev_revision` of some row other than the compact watermark row with
nonzero `prev_revision` and `id <= target`, or when it is the id of a
tombstone row with `id <= target`. Both `?` placeholders of the statement
are bound to the same compaction target. -/
def compactSelected (target : Nat) (rows : List Row) (i : Nat) : Prop :=
  (∃ kp ∈ rows, kp.name ≠ "compact_rev_key" ∧ kp.prev_revision ≠ 0 ∧
      kp.id ≤ target ∧ kp.prev_revision = i) ∨
  (∃ kd ∈ rows, kd.deleted ≠ 0 ∧ kd.id ≤ target ∧ kd.id = i)

instance compactSelectedDecidable (target : Nat) (rows : List Row) (i : Nat) :
    Decidable (compactSelected target rows i) := by
  unfold compactSelected
  exact inferInstance

/-- Relational reading of the full `DELETE kv FROM ... INNER JOIN (...) ks
ON kv.id = ks.id` statement: the table resulting from compaction keeps
exactly the rows whose id was not selected by the derived table `ks`
(which MySQL materializes against the pre-delete table). -/
def compactDelete (target : Nat) (rows : List Row) : List Row :=
  rows.filter fun kv => decide (¬ compactSelected target rows kv.id)

/-- Characterization of the deleted rows written from the specification
text, for comparison with `compactDelete`: a row is deleted exactly when
its id appears as the `prev_revision` of some row with `id ≤ target`
other than the compact watermark row, or when it is a tombstone with
`id ≤ target`. -/
def specCompactDeleted (target : Nat) (rows : List Row) (r : Row) : Prop :=
  (∃ kp ∈ rows, kp.name ≠ "compact_rev_key" ∧ kp.id ≤ target ∧
      kp.prev_revision = r.id) ∨
  (r.deleted ≠ 0 ∧ r.id ≤ target)

/-! Schema DDL (`getSchema`, mysql.go lines 27-48).

The Go function returns SQL strings; `getSchema` reproduces them
character for character (the Go raw literals contain the newlines and
tabs of the source file). `getSchemaStmts` is the structured reading of
the same statements, related to the strings by `renderSchemaStmt`.
-/

/-- Body of the `CREATE TABLE` raw string literal of `getSchema`
(mysql.go lines 29-41), the part after the interpolated table name. -/
def createTableBody : String :=
  "\n\t\t\t(\n\t\t\t\tid BIGINT UNSIGNED AUTO_INCREMENT,\n\t\t\t\tname VARCHAR(630) CHARACTER SET ascii,\n\t\t\t\tcreated INTEGER,\n\t\t\t\tdeleted INTEGER,\n\t\t\t\tcreate_revision BIGINT UNSIGNED,\n\t\t\t\tprev_revision BIGINT UNSIGNED,\n\t\t\t\tlease INTEGER,\n\t\t\t\tvalue MEDIUMBLOB,\n\t\t\t\told_value MEDIUMBLOB,\n\t\t\t\tPRIMARY KEY (id)\n\t\t\t);"

/-- Embedding of `getSchema` (mysql.go lines 27-48): the exact SQL strings
the Go code builds with `fmt.Sprintf` for a given table name. -/
def getSchema (tableName : String) : List String :=
  ["CREATE TABLE IF NOT EXISTS " ++ tableName ++ createTableBody,
   "CREATE INDEX " ++ tableName ++ "_name_index ON " ++ tableName ++ " (name)",
   "CREATE INDEX " ++ tableName ++ "_name_id_index ON " ++ tableName ++ " (name,id)",
   "CREATE INDEX " ++ tableName ++ "_id_deleted_index ON " ++ tableName ++ " (id,deleted)",
   "CREATE INDEX " ++ tableName ++ "_prev_revision_index ON " ++ tableName ++ " (prev_revision)",
   "CREATE UNIQUE INDEX " ++ tableName ++ "_name_prev_revision_uindex ON " ++ tableName ++ " (name, prev_revision)"]

/-- Column types appearing in the kine table schema. -/
inductive ColumnType where
  | bigintUnsignedAutoIncrement
  | varcharAscii (width : Nat)
  | integer
  | bigintUnsigned
  | mediumblob
  deriving DecidableEq, Repr

/-- Column of a `CREATE TABLE` statement: a name and a type. -/
structure Column where
  name : String
  type : ColumnType
  deriving DecidableEq, Repr

/-- Structured form of the DDL statements `getSchema` emits. -/
inductive SchemaStmt where
  | createTable (table : String) (columns : List Column) (primaryKey : List String)
  | createIndex (uniq : Bool) (indexName : String) (table : String) (columns : List String)
  deriving DecidableEq, Repr

/-- SQL spelling of a column type, as written in the `getSchema` literal. -/
def renderColumnType : ColumnType → String
  | ColumnType.bigintUnsignedAutoIncrement => "BIGINT UNSIGNED AUTO_INCREMENT"
  | ColumnType.varcharAscii width => "VARCHAR(" ++ Nat.repr width ++ ") CHARACTER SET ascii"
  | ColumnType.integer => "INTEGER"
  | ColumnType.bigintUnsigned => "BIGINT UNSIGNED"
  | ColumnType.mediumblob => "MEDIUMBLOB"

/-- SQL spelling of one column declaration. -/
def renderColumn (c : Column) : String :=
  c.name ++ " " ++ renderColumnType c.type

/-- SQL spelling of a structured DDL statement, with the indentation of
the Go raw string literals. The source writes non-unique index column
lists without a space after the comma and the unique one with a space, so
the renderer follows the unique flag. -/
def renderSchemaStmt : SchemaStmt → String
  | SchemaStmt.createTable table columns primaryKey =>
    "CREATE TABLE IF NOT EXISTS " ++ table ++
      ("\n\t\t\t(\n\t\t\t\t" ++
        String.intercalate ",\n\t\t\t\t" (columns.map renderColumn) ++
        ",\n\t\t\t\tPRIMARY KEY (" ++ String.intercalate ", " primaryKey ++ ")\n\t\t\t);")
  | SchemaStmt.createIndex uniq indexName table columns =>
    (if uniq then "CREATE UNIQUE INDEX " else "CREATE INDEX ") ++ indexName ++
      " ON " ++ table ++ " (" ++
      String.intercalate (if uniq then ", " else ",") columns ++ ")"

/-- Columns of the kine log table, read off the `CREATE TABLE` statement
of `getSchema`. -/
def kineColumns : List Column :=
  [⟨"id", ColumnType.bigintUnsignedAutoIncrement⟩,
   ⟨"name", ColumnType.varcharAscii 630⟩,
   ⟨"created", ColumnType.integer⟩,
   ⟨"deleted", ColumnType.integer⟩,
   ⟨"create_revision", ColumnType.bigintUnsigned⟩,
   ⟨"prev_revision", ColumnType.bigintUnsigned⟩,
   ⟨"lease", ColumnType.integer⟩,
   ⟨"value", ColumnType.mediumblob⟩,
   ⟨"old_value", ColumnType.mediumblob⟩]

/-- Structured reading of the statement list of `getSchema`. -/
def getSchemaStmts (tableName : String) : List SchemaStmt :=
  [SchemaStmt.createTable tableName kineColumns ["id"],
   SchemaStmt.createIndex false (tableName ++ "_name_index") tableName ["name"],
   SchemaStmt.createIndex false (tableName ++ "_name_id_index") tableName ["name", "id"],
   SchemaStmt.createIndex false (tableName ++ "_id_deleted_index") tableName ["id", "deleted"],
   SchemaStmt.createIndex false (tableName ++ "_prev_revision_index") tableName ["prev_revision"],
   SchemaStmt.createIndex true (tableName ++ "_name_prev_revision_uindex") tableName
     ["name", "prev_revision"]]

/-- Tables created by a statement list (the `createTable` statements). -/
def tablesCreated (stmts : List SchemaStmt) : List String :=
  stmts.foldr (fun s acc => match s with
    | SchemaStmt.createTable table _ _ => table :: acc
    | SchemaStmt.createIndex _ _ _ _ => acc) []

/-- Column-name lists of the `createTable` statements of a list. -/
def tableColumnNames (stmts : List SchemaStmt) : List (List String) :=
  stmts.foldr (fun s acc => match s with
    | SchemaStmt.createTable _ columns _ => columns.map Column.name :: acc
    | SchemaStmt.createIndex _ _ _ _ => acc) []

/-- Indexes declared by a statement list, as (unique, table, columns). -/
def indexesCreated (stmts : List SchemaStmt) : List (Bool × String × List String) :=
  stmts.foldr (fun s acc => match s with
    | SchemaStmt.createTable _ _ _ => acc
    | SchemaStmt.createIndex uniq _ table columns => (uniq, table, columns) :: acc) []

/-- Embedding of `getSchemaMigrations` (mysql.go lines 50-57): the `ALTER
TABLE` statement of migration 0 and the deliberately empty migration 1. -/
def getSchemaMigrations (tableName : String) : List String :=
  ["ALTER TABLE " ++ tableName ++
     " MODIFY COLUMN id BIGINT UNSIGNED AUTO_INCREMENT NOT NULL UNIQUE, MODIFY COLUMN create_revision BIGINT UNSIGNED, MODIFY COLUMN prev_revision BIGINT UNSIGNED",
   ""]

/-! Setup (`setup`, mysql.go lines 135-175).

The `*sql.DB` handle is abstracted as an executor
`exec : String → Option GoErr` giving the outcome of `db.Exec` on each
statement (`none` is success). The table-existence probe of lines 137-141
is abstracted as the boolean it produces. Each model returns the list of
statements actually handed to `db.Exec`, or the first error that aborts.
-/

/-- Predicate of mysql.go lines 147 and 167: an execution error is
swallowed exactly when it is a `*mysql.MySQLError` with `Number` 1061
(duplicate index). -/
def isDuplicateIndexErr : GoErr → Bool
  | GoErr.mysqlError n _ => n == 1061
  | GoErr.other _ => false

/-- Execution of a statement list in order (the schema loop of mysql.go
lines 144-151): a failing statement counts as executed when its error is
the duplicate-index error 1061, and any other error aborts the loop and
is returned. -/
def execStmts (exec : String → Option GoErr) : List String → Except GoErr (List String)
  | [] => Except.ok []
  | s :: rest =>
    match exec s with
    | none =>
      match execStmts exec rest with
      | Except.ok executed => Except.ok (s :: executed)
      | Except.error e => Except.error e
    | some e =>
      if isDuplicateIndexErr e then
        match execStmts exec rest with
        | Except.ok executed => Except.ok (s :: executed)
        | Except.error e2 => Except.error e2
      else Except.error e

/-- Go conversion `int(v)` of a `uint64` value on a 64-bit platform: the
value is reinterpreted as a two's-complement signed 64-bit integer. -/
def goIntOfUint64 (v : Nat) : Int :=
  if v < 2 ^ 63 then (v : Int) else (v : Int) - 2 ^ 64

/-- Embedding of the migration loop of `setup` (mysql.go lines 158-171),
carrying the loop index `i`: the loop breaks as soon as
`i >= int(schemaVersion)` (Go compares `i` against the `uint64` level
converted to `int`), skips empty statements, executes the rest, ignores
the duplicate-index error 1061, and returns any other error. -/
def execMigrations (exec : String → Option GoErr) (schemaVersion : Nat) :
    Nat → List String → Except GoErr (List String)
  | _, [] => Except.ok []
  | i, s :: rest =>
    if goIntOfUint64 schemaVersion ≤ (i : Int) then Except.ok []
    else if s = "" then execMigrations exec schemaVersion (i + 1) rest
    else
      match exec s with
      | none =>
        match execMigrations exec schemaVersion (i + 1) rest with
        | Except.ok executed => Except.ok (s :: executed)
        | Except.error e => Except.error e
      | some e =>
        if isDuplicateIndexErr e then
          match execMigrations exec schemaVersion (i + 1) rest with
          | Except.ok executed => Except.ok (s :: executed)
          | Except.error e2 => Except.error e2
        else Except.error e

/-- Statements the migration loop selects for execution (its control flow
with the `db.Exec` calls stripped out): the prefix of the list cut off at
`int(schemaVersion)` with empty statements dropped. -/
def migrationsToRun (schemaVersion : Nat) : Nat → List String → List String
  | _, [] => []
  | i, s :: rest =>
    if goIntOfUint64 schemaVersion ≤ (i : Int) then []
    else if s = "" then migrationsToRun schemaVersion (i + 1) rest
    else s :: migrationsToRun schemaVersion (i + 1) rest

/-- Embedding of `setup` (mysql.go lines 135-175): when the
table-existence probe came back false the schema statements run first
(aborting on any non-1061 error), then the enabled migrations run under
the same error policy. The result is the list of statements handed to
`db.Exec`, in order. -/
def setup (tableExists : Bool) (schemaVersion : Nat) (tableName : String)
    (exec : String → Option GoErr) : Except GoErr (List String) :=
  match (if tableExists then Except.ok [] else execStmts exec (getSchema tableName)) with
  | Except.error e => Except.error e
  | Except.ok schemaExecuted =>
    match execMigrations exec schemaVersion 0 (getSchemaMigrations tableName) with
    | Except.error e => Except.error e
    | Except.ok migrationsExecuted => Except.ok (schemaExecuted ++ migrationsExecuted)

/-! Dialect configuration done by `New` (mysql.go lines 61-133). -/

/-- Exact string `dialect.GetSizeSQL` is set to (mysql.go lines 91-94),
for a given table name. -/
def mkGetSizeSQL (tableName : String) : String :=
  "\n\t\tSELECT SUM(data_length + index_length)\n\t\tFROM information_schema.TABLES\n\t\tWHERE table_schema = DATABASE() AND table_name = \x27" ++ tableName ++ "\x27"

/-- Exact string `dialect.CompactSQL` is set to (mysql.go lines 95-111),
for a given table name. -/
def mkCompactSQL (tableName : String) : String :=
  "\n\t\tDELETE kv FROM " ++ tableName ++
    " AS kv\n\t\tINNER JOIN (\n\t\t\tSELECT kp.prev_revision AS id\n\t\t\tFROM " ++ tableName ++
    " AS kp\n\t\t\tWHERE\n\t\t\t\tkp.name != \x27compact_rev_key\x27 AND\n\t\t\t\tkp.prev_revision != 0 AND\n\t\t\t\tkp.id <= ?\n\t\t\tUNION\n\t\t\tSELECT kd.id AS id\n\t\t\tFROM " ++ tableName ++
    " AS kd\n\t\t\tWHERE\n\t\t\t\tkd.deleted != 0 AND\n\t\t\t\tkd.id <= ?\n\t\t) AS ks\n\t\tON kv.id = ks.id"

/-- Table-name resolution of `New` (mysql.go lines 85-88): an empty
configured table name falls back to "kine". -/
def resolveTableName (cfgTableName : String) : String :=
  if cfgTableName = "" then "kine" else cfgTableName

/-- Dialect fields `New` configures: the placeholder style and numbering
passed to `generic.Open` (mysql.go line 80), the `LastInsertID` flag, the
two SQL strings, and the table name handed to `setup` (line 127). -/
structure DriverSetup where
  paramCharacter : String
  numbered : Bool
  lastInsertID : Bool
  getSizeSQL : String
  compactSQL : String
  setupTableName : String
  deriving DecidableEq, Repr

/-- Embedding of the dialect configuration `New` performs (mysql.go lines
80-94 and 127): `generic.Open` receives the "?" placeholder and
`numbered = false`, `LastInsertID` is set to true, and the size and
compact statements and the `setup` call use the resolved table name. -/
def newDriver (cfgTableName : String) : DriverSetup :=
  let tableName := resolveTableName cfgTableName
  { paramCharacter := "?"
    numbered := false
    lastInsertID := true
    getSizeSQL := mkGetSizeSQL tableName
    compactSQL := mkCompactSQL tableName
    setupTableName := tableName }

/-! Semantics of the size query. -/

/-- Row of `information_schema.TABLES` restricted to the columns the size
query reads. -/
structure TableInfo where
  tableSchema : String
  tableName : String
  dataLength : Nat
  indexLength : Nat
  deriving DecidableEq, Repr

/-- Evaluation of the `GetSizeSQL` statement over a modelled
`information_schema.TABLES`: a scan accumulating
`SUM(data_length + index_length)` over the rows matching
`table_schema = DATABASE() AND table_name = tableName`, returning `none`
(SQL NULL) when no row matches. -/
def evalGetSizeSQL (currentDB tableName : String) : List TableInfo → Option Nat
  | [] => none
  | r :: rest =>
    let prev := evalGetSizeSQL currentDB tableName rest
    if r.tableSchema = currentDB ∧ r.tableName = tableName then
      some (r.dataLength + r.indexLength + prev.getD 0)
    else prev

/-! Supporting lemmas. -/

/-- Membership in the compacted table unfolded: a row of the original
table survives exactly when its id was not selected for deletion. -/
theorem mem_compactDelete {target : Nat} {rows : List Row} {r : Row} :
    r ∈ compactDelete target rows ↔
      r ∈ rows ∧ ¬ compactSelected target rows r.id := by
  unfold compactDelete
  rw [List.mem_filter]
  simp

/-- Equivalence, over tables with positive and unique ids, of the id set
the `CompactSQL` derived table selects and the specification's
description of the deleted rows. -/
theorem compactSelected_iff_spec {target : Nat} {rows : List Row} {r : Row}
    (hr : r ∈ rows)
    (hpos : ∀ x ∈ rows, 0 < x.id)
    (huniq : ∀ x ∈ rows, ∀ y ∈ rows, x.id = y.id → x = y) :
    compactSelected target rows r.id ↔ specCompactDeleted target rows r := by
  constructor
  · intro h
    rcases h with ⟨kp, hkp, hname, _, hle, heq⟩ | ⟨kd, hkd, hdel, hle, hid⟩
    · exact Or.inl ⟨kp, hkp, hname, hle, heq⟩
    · rcases huniq kd hkd r hr hid with rfl
      exact Or.inr ⟨hdel, hle⟩
  · intro h
    rcases h with ⟨kp, hkp, hname, hle, heq⟩ | ⟨hdel, hle⟩
    · refine Or.inl ⟨kp, hkp, hname, ?_, hle, heq⟩
      rw [heq]
      have := hpos r hr
      omega
    · exact Or.inr ⟨r, hr, hdel, hle, rfl⟩

/-- Length-zero strings are empty. -/
theorem string_eq_empty_of_length {s : String} (h : s.length = 0) : s = "" := by
  cases s with
  | mk data =>
    simp [String.length] at h
    simp [h]

/-- Output list of `Nat.toDigitsCore` is at least as long as its
accumulator. -/
theorem toDigitsCore_length_le (b : Nat) :
    ∀ (fuel n : Nat) (ds : List Char), ds.length ≤ (Nat.toDigitsCore b fuel n ds).length := by
  intro fuel
  induction fuel with
  | zero => intro n ds; simp [Nat.toDigitsCore]
  | succ f ih =>
    intro n ds
    simp only [Nat.toDigitsCore]
    split
    · simp
    · calc ds.length ≤ (Nat.digitChar (n % b) :: ds).length := by simp
        _ ≤ _ := ih _ _

/-- Decimal representation of a natural number is never the empty
string. -/
theorem natRepr_ne_empty (n : Nat) : Nat.repr n ≠ "" := by
  have h : 1 ≤ (Nat.toDigits 10 n).length := by
    unfold Nat.toDigits
    simp only [Nat.toDigitsCore]
    split
    · simp
    · calc 1 ≤ (Nat.digitChar (n % 10) :: []).length := by simp
        _ ≤ _ := toDigitsCore_length_le _ _ _ _
  intro heq
  have hdata : Nat.toDigits 10 n = [] := by
    have := congrArg String.data heq
    simpa [Nat.repr, List.asString] using this
  simp [hdata] at h

/-- Statement lists whose executions all succeed or fail only with the
duplicate-index error 1061 are executed in full. -/
theorem execStmts_ok (exec : String → Option GoErr) :
    ∀ l : List String,
      (∀ s ∈ l, exec s = none ∨ ∃ m, exec s = some (GoErr.mysqlError 1061 m)) →
      execStmts exec l = Except.ok l := by
  intro l
  induction l with
  | nil => intro _; rfl
  | cons s rest ih =>
    intro h
    have hrest := ih fun u hu => h u (List.mem_cons_of_mem s hu)
    rcases h s (List.mem_cons_self s rest) with hs | ⟨m, hs⟩
    · simp [execStmts, hs, hrest]
    · simp [execStmts, hs, hrest, isDuplicateIndexErr]

/-- Execution aborts with the first error that is not the duplicate-index
error 1061 and returns it. -/
theorem execStmts_error (exec : String → Option GoErr) :
    ∀ (pre : List String) (s : String) (post : List String) (e : GoErr),
      (∀ u ∈ pre, exec u = none) → exec s = some e → isDuplicateIndexErr e = false →
      execStmts exec (pre ++ s :: post) = Except.error e := by
  intro pre
  induction pre with
  | nil =>
    intro s post e _ hs hd
    simp [execStmts, hs, hd]
  | cons u pre ih =>
    intro s post e hpre hs hd
    have hu : exec u = none := hpre u (List.mem_cons_self u pre)
    have := ih s post e (fun x hx => hpre x (List.mem_cons_of_mem u hx)) hs hd
    simp [execStmts, hu, this]

/-- Migration loop as selection followed by plain execution: the loop's
control flow does not depend on execution outcomes, so it executes
exactly the statements `migrationsToRun` selects. -/
theorem execMigrations_eq_execStmts (exec : String → Option GoErr) (v : Nat) :
    ∀ (stmts : List String) (i : Nat),
      execMigrations exec v i stmts = execStmts exec (migrationsToRun v i stmts) := by
  intro stmts
  induction stmts with
  | nil => intro i; rfl
  | cons s rest ih =>
    intro i
    by_cases hbreak : goIntOfUint64 v ≤ (i : Int)
    · simp [execMigrations, migrationsToRun, hbreak, execStmts]
    · by_cases hs : s = ""
      · simp [execMigrations, migrationsToRun, hbreak, hs, ih]
      · cases hx : exec s with
        | none => simp [execMigrations, migrationsToRun, hbreak, hs, execStmts, hx, ih]
        | some e =>
          by_cases hd : isDuplicateIndexErr e <;>
            simp [execMigrations, migrationsToRun, hbreak, hs, execStmts, hx, hd, ih]

/-- Selection of the migration loop for levels below `2 ^ 63` (where the
Go conversion to `int` is the identity): the non-empty statements among
the first `level - i` remaining entries. -/
theorem migrationsToRun_small {v : Nat} (hv : v < 2 ^ 63) :
    ∀ (stmts : List String) (i : Nat),
      migrationsToRun v i stmts = ((stmts.take (v - i)).filter fun s => s != "") := by
  intro stmts
  induction stmts with
  | nil => intro i; simp [migrationsToRun]
  | cons s rest ih =>
    intro i
    have hg : goIntOfUint64 v = (v : Int) := by unfold goIntOfUint64; rw [if_pos hv]
    by_cases hvi : v ≤ i
    · have h0 : v - i = 0 := by omega
      have hcond : goIntOfUint64 v ≤ (i : Int) := by rw [hg]; exact_mod_cast hvi
      simp [migrationsToRun, hcond, h0]
    · have hcond : ¬ goIntOfUint64 v ≤ (i : Int) := by rw [hg]; exact_mod_cast hvi
      have htake : v - i = (v - (i + 1)) + 1 := by omega
      rw [htake, List.take_succ_cons]
      by_cases hs : s = ""
      · simp [migrationsToRun, hcond, hs, ih (i + 1)]
      · simp [migrationsToRun, hcond, hs, ih (i + 1)]

/-- Selection of the migration loop for levels in `[2 ^ 63, 2 ^ 64)`: the
Go conversion to `int` is negative, so the loop breaks before its first
statement and nothing is selected. -/
theorem migrationsToRun_big {v : Nat} (h1 : 2 ^ 63 ≤ v) (h2 : v < 2 ^ 64) :
    ∀ (stmts : List String) (i : Nat), migrationsToRun v i stmts = [] := by
  intro stmts i
  have hg : goIntOfUint64 v ≤ (i : Int) := by
    unfold goIntOfUint64
    rw [if_neg (by omega)]
    have : (v : Int) < 2 ^ 64 := by exact_mod_cast h2
    omega
  cases stmts with
  | nil => rfl
  | cons s rest => simp [migrationsToRun, hg]

/-- Sample table used to instantiate the compaction theorem: two
revisions of key "a" (id 1 superseded by id 2), a tombstone of key "b"
(id 3), and the compact watermark row (id 4) whose `prev_revision` field
stores the watermark 2. -/
def sampleRows : List Row :=
  [⟨1, "a", 1, 0, 1, 0, 0, "v1", ""⟩,
   ⟨2, "a", 0, 0, 1, 1, 0, "v2", "v1"⟩,
   ⟨3, "b", 1, 1, 3, 0, 0, "", ""⟩,
   ⟨4, "compact_rev_key", 1, 0, 4, 2, 0, "", ""⟩]

/-! Claim theorems. -/

/-- C1: the MySQL compaction statement deletes exactly (a) the rows whose
id appears as the `prev_revision` of some row with id ≤ target other than
the compact watermark row and (b) the tombstone rows (deleted ≠ 0) with
id ≤ target; consequently a row with deleted = 0 that no row other than
the watermark row supersedes (in particular the live row of its key) is
never deleted, and neither is the watermark row "compact_rev_key" itself,
for every target. Ids are assumed positive (AUTO_INCREMENT primary keys)
and unique (primary key). -/
theorem compact_statement_correct (target : Nat) (rows : List Row)
    (hpos : ∀ x ∈ rows, 0 < x.id)
    (huniq : ∀ x ∈ rows, ∀ y ∈ rows, x.id = y.id → x = y) :
    (∀ r ∈ rows, (r ∈ compactDelete target rows ↔ ¬ specCompactDeleted target rows r)) ∧
    (∀ r ∈ rows, r.deleted = 0 →
      (∀ kp ∈ rows, kp.name ≠ "compact_rev_key" → kp.prev_revision ≠ r.id) →
      r ∈ compactDelete target rows) ∧
    (∀ r ∈ rows, r.name = "compact_rev_key" → r.deleted = 0 →
      (∀ kp ∈ rows, kp.name ≠ "compact_rev_key" → kp.prev_revision ≠ r.id) →
      r ∈ compactDelete target rows) := by
  have hsel : ∀ r ∈ rows, r.deleted = 0 →
      (∀ kp ∈ rows, kp.name ≠ "compact_rev_key" → kp.prev_revision ≠ r.id) →
      r ∈ compactDelete target rows := by
    intro r hr hdel href
    rw [mem_compactDelete]
    refine ⟨hr, ?_⟩
    intro hcontra
    rcases hcontra with ⟨kp, hkp, hname, _, _, heq⟩ | ⟨kd, hkd, hkdel, _, hid⟩
    · exact href kp hkp hname heq
    · rcases huniq kd hkd r hr hid with rfl
      exact hkdel hdel
  refine ⟨?_, hsel, fun r hr _ => hsel r hr⟩
  intro r hr
  rw [mem_compactDelete, compactSelected_iff_spec hr hpos huniq]
  simp [hr]

/-- C1 witness: on the sample table with target 3, the superseding (live)
row of key "a" and the watermark row both survive compaction, even though
the watermark stores `prev_revision = 2`, the live row's id. -/
theorem compact_statement_correct_witness :
    (⟨2, "a", 0, 0, 1, 1, 0, "v2", "v1"⟩ : Row) ∈ compactDelete 3 sampleRows ∧
    (⟨4, "compact_rev_key", 1, 0, 4, 2, 0, "", ""⟩ : Row) ∈ compactDelete 3 sampleRows := by
  constructor
  · exact (compact_statement_correct 3 sampleRows (by decide) (by decide)).2.1
      ⟨2, "a", 0, 0, 1, 1, 0, "v2", "v1"⟩ (by decide) (by decide) (by decide)
  · exact (compact_statement_correct 3 sampleRows (by decide) (by decide)).2.2
      ⟨4, "compact_rev_key", 1, 0, 4, 2, 0, "", ""⟩ (by decide) (by decide) (by decide) (by decide)

/-- C2: the error translator maps a MySQL unique-violation (error number
1062) to the domain error `server.ErrKeyExists` and returns every other
input, including nil, non-1062 MySQL errors and non-MySQL errors,
unchanged. -/
theorem translateErr_unique_violation :
    (∀ m, translateErr (some (GoErr.mysqlError 1062 m)) = some serverErrKeyExists) ∧
    translateErr none = none ∧
    (∀ n m, n ≠ 1062 → translateErr (some (GoErr.mysqlError n m)) = some (GoErr.mysqlError n m)) ∧
    (∀ m, translateErr (some (GoErr.other m)) = some (GoErr.other m)) := by
  refine ⟨fun m => by simp [translateErr], rfl, fun n m h => by simp [translateErr, h], fun m => rfl⟩

/-- C2 witness: a MySQL lock-wait-timeout error (number 1205) passes
through the translator unchanged. -/
theorem translateErr_unique_violation_witness :
    translateErr (some (GoErr.mysqlError 1205 "lock wait timeout")) =
      some (GoErr.mysqlError 1205 "lock wait timeout") :=
  translateErr_unique_violation.2.2.1 1205 "lock wait timeout" (by decide)

/-- C3: for every table name, the schema statement list renders the
structured statements, which create exactly one table with exactly the
columns id, name, created, deleted, create_revision, prev_revision,
lease, value, old_value, and the indexes (name), (name,id), (id,deleted),
(prev_revision) plus a UNIQUE index on (name, prev_revision). -/
theorem getSchema_schema_content (t : String) :
    getSchema t = (getSchemaStmts t).map renderSchemaStmt ∧
    tablesCreated (getSchemaStmts t) = [t] ∧
    tableColumnNames (getSchemaStmts t) =
      [["id", "name", "created", "deleted", "create_revision", "prev_revision",
        "lease", "value", "old_value"]] ∧
    indexesCreated (getSchemaStmts t) =
      [(false, t, ["name"]), (false, t, ["name", "id"]), (false, t, ["id", "deleted"]),
       (false, t, ["prev_revision"]), (true, t, ["name", "prev_revision"])] := by
  refine ⟨?_, rfl, rfl, rfl⟩
  have h630 : Nat.repr 630 = "630" := rfl
  simp [getSchema, getSchemaStmts, renderSchemaStmt, kineColumns, renderColumn,
    renderColumnType, createTableBody, String.intercalate, String.intercalate.go,
    h630, String.append_assoc]

/-- C4 counterexample: at schema-migration level `2 ^ 63` (representable,
since the KINE_SCHEMA_MIGRATION variable is parsed as a uint64) the code
executes no migration statement at all, although the first `2 ^ 63`
entries of the migration list contain a non-empty statement that the
claim says would be executed: Go's `int(schemaVersion)` wraps to a
negative number and the loop breaks immediately. -/
theorem setup_migration_overflow_counterexample :
    setup false (2 ^ 63) "kine" (fun _ => none) = Except.ok (getSchema "kine") ∧
    (((getSchemaMigrations "kine").take (2 ^ 63)).filter fun s => s != "") ≠ [] := by
  constructor
  · rfl
  · decide

/-- C4 (amended): for every schema-migration level `n < 2 ^ 63`, setup
executes exactly the non-empty migration statements among the first `n`
entries of the migration list, in order, and none with index ≥ n; for
`n` in `[2 ^ 63, 2 ^ 64)` the conversion of the uint64 level to a Go
`int` is negative and no migration statement is executed. -/
theorem setup_migration_level_amended (tableExists : Bool) (n : Nat) (t : String) :
    (n < 2 ^ 63 →
      setup tableExists n t (fun _ => none) =
        Except.ok ((if tableExists then [] else getSchema t) ++
          (((getSchemaMigrations t).take n).filter fun s => s != ""))) ∧
    (2 ^ 63 ≤ n → n < 2 ^ 64 →
      setup tableExists n t (fun _ => none) =
        Except.ok (if tableExists then [] else getSchema t)) := by
  have hexecok : ∀ l : List String, execStmts (fun _ => none) l = Except.ok l :=
    fun l => execStmts_ok _ l fun _ _ => Or.inl rfl
  constructor
  · intro hn
    have hmig : execMigrations (fun _ => none) n 0 (getSchemaMigrations t) =
        Except.ok (((getSchemaMigrations t).take n).filter fun s => s != "") := by
      rw [execMigrations_eq_execStmts, migrationsToRun_small hn _ 0, Nat.sub_zero]
      exact hexecok _
    cases tableExists
    · simp [setup, hexecok, hmig]
    · simp [setup, hmig]
  · intro h1 h2
    have hmig : execMigrations (fun _ => none) n 0 (getSchemaMigrations t) =
        Except.ok [] := by
      rw [execMigrations_eq_execStmts, migrationsToRun_big h1 h2]
      rfl
    cases tableExists
    · simp [setup, hexecok, hmig]
    · simp [setup, hmig]

/-- C4 witness: at level 1 with no pre-existing table, setup runs the
schema and then exactly the non-empty statements of the first migration
entry; at level `2 ^ 63` with the table present, it runs nothing. -/
theorem setup_migration_level_amended_witness :
    setup false 1 "kine" (fun _ => none) =
      Except.ok (getSchema "kine" ++
        (((getSchemaMigrations "kine").take 1).filter fun s => s != "")) ∧
    setup true (2 ^ 63) "kine" (fun _ => none) = Except.ok [] := by
  constructor
  · have := (setup_migration_level_amended false 1 "kine").1 (by norm_num)
    simpa using this
  · have := (setup_migration_level_amended true (2 ^ 63) "kine").2 (le_refl _) (by norm_num)
    simpa using this

/-- C5: with an empty configured table name the driver uses the default
table name "kine" for the size query, the compact query and the schema
setup; a non-empty configured name is used unchanged in all three
places. -/
theorem new_table_name_resolution :
    (newDriver "").getSizeSQL = mkGetSizeSQL "kine" ∧
    (newDriver "").compactSQL = mkCompactSQL "kine" ∧
    (newDriver "").setupTableName = "kine" ∧
    (∀ t : String, t ≠ "" →
      (newDriver t).getSizeSQL = mkGetSizeSQL t ∧
      (newDriver t).compactSQL = mkCompactSQL t ∧
      (newDriver t).setupTableName = t) := by
  refine ⟨rfl, rfl, rfl, fun t ht => ?_⟩
  simp [newDriver, resolveTableName, ht]

/-- C5 witness: a custom table name is passed through to setup. -/
theorem new_table_name_resolution_witness :
    (newDriver "custom").setupTableName = "custom" :=
  (new_table_name_resolution.2.2.2 "custom" (by decide)).2.2

/-- C6: the MySQL dialect is configured with the last-insert-id strategy
(`LastInsertID = true`), the "?" placeholder character, and non-numbered
placeholders, for every configured table name. -/
theorem new_dialect_capabilities (cfgTableName : String) :
    (newDriver cfgTableName).lastInsertID = true ∧
    (newDriver cfgTableName).paramCharacter = "?" ∧
    (newDriver cfgTableName).numbered = false :=
  ⟨rfl, rfl, rfl⟩

/-- C7: the configured size query names the resolved table, and its
evaluation over a modelled `information_schema.TABLES` returns the sum of
`data_length + index_length` over exactly the rows of the configured
table in the current database (NULL when no such row exists). -/
theorem getSizeSQL_semantics (cfgTableName db t : String) (tables : List TableInfo) :
    (newDriver cfgTableName).getSizeSQL = mkGetSizeSQL (resolveTableName cfgTableName) ∧
    evalGetSizeSQL db t tables =
      (if (tables.filter fun r => decide (r.tableSchema = db ∧ r.tableName = t)) = []
       then none
       else some (((tables.filter fun r =>
          decide (r.tableSchema = db ∧ r.tableName = t)).map
            fun r => r.dataLength + r.indexLength).sum)) := by
  refine ⟨rfl, ?_⟩
  induction tables with
  | nil => rfl
  | cons r rest ih =>
    simp only [evalGetSizeSQL]
    by_cases hm : r.tableSchema = db ∧ r.tableName = t
    · rw [if_pos hm, ih, List.filter_cons_of_pos (by simpa using hm)]
      by_cases hrest :
          (rest.filter fun x => decide (x.tableSchema = db ∧ x.tableName = t)) = []
      · rw [if_pos hrest, hrest, if_neg (by simp)]
        simp
      · rw [if_neg hrest, if_neg (by simp)]
        simp
    · rw [if_neg hm, ih, List.filter_cons_of_neg (by simpa using hm)]

/-- C8 counterexample: the claimed "empty string iff the error is nil"
fails, because a non-nil, non-MySQL error whose message is empty is also
mapped to the empty string. -/
theorem errCode_empty_iff_nil_counterexample :
    errCode (some (GoErr.other "")) = "" ∧ some (GoErr.other "") ≠ (none : Option GoErr) :=
  ⟨rfl, by simp⟩

/-- C8 (amended): the error-code extractor returns the empty string for
nil, the decimal representation of the number for a MySQL error, and the
message for any other error; consequently it returns the empty string
exactly for nil and for a non-MySQL error with empty message (the nil
direction of the claimed equivalence holds, the converse does not). -/
theorem errCode_amended :
    errCode none = "" ∧
    (∀ n m, errCode (some (GoErr.mysqlError n m)) = Nat.repr n) ∧
    (∀ m, errCode (some (GoErr.other m)) = m) ∧
    (∀ e : Option GoErr, errCode e = "" ↔ e = none ∨ e = some (GoErr.other "")) := by
  refine ⟨rfl, fun n m => rfl, fun m => rfl, ?_⟩
  intro e
  match e with
  | none => simp [errCode]
  | some (GoErr.mysqlError n m) => simp [errCode, natRepr_ne_empty n]
  | some (GoErr.other m) => simp [errCode]

/-- C9: an empty data source name defaults to the unix-socket DSN, or to
the TCP DSN when a TLS configuration is supplied; a non-empty one is kept;
and the parsed configuration's database name defaults to "kubernetes"
exactly when the DSN named no database. -/
theorem prepareDSN_spec :
    chooseDataSourceName "" false = defaultUnixDSN ∧
    chooseDataSourceName "" true = defaultHostDSN ∧
    (∀ (dsn : String) (hasTLS : Bool), dsn ≠ "" → chooseDataSourceName dsn hasTLS = dsn) ∧
    (∀ (hasTLS : Bool) (config : MySQLConfig), config.dbName = "" →
      (prepareDSNConfig hasTLS config).dbName = "kubernetes") ∧
    (∀ (hasTLS : Bool) (config : MySQLConfig), config.dbName ≠ "" →
      (prepareDSNConfig hasTLS config).dbName = config.dbName) := by
  have hemptylen : ("" : String).length = 0 := rfl
  refine ⟨rfl, rfl, ?_, ?_, ?_⟩
  · intro dsn hasTLS h
    unfold chooseDataSourceName
    rw [if_neg]
    intro hlen
    exact h (string_eq_empty_of_length hlen)
  · intro hasTLS config h
    cases hasTLS <;> simp [prepareDSNConfig, h, hemptylen]
  · intro hasTLS config h
    have hpos : 0 < config.dbName.length := by
      rcases Nat.eq_zero_or_pos config.dbName.length with h0 | h0
      · exact absurd (string_eq_empty_of_length h0) h
      · exact h0
    cases hasTLS <;> simp [prepareDSNConfig, hpos]

/-- C9 witness: a non-empty DSN is kept; a configuration without a
database name gets "kubernetes"; one with a database name keeps it. -/
theorem prepareDSN_spec_witness :
    chooseDataSourceName "user@tcp(10.0.0.1)/db" true = "user@tcp(10.0.0.1)/db" ∧
    (prepareDSNConfig false ⟨"", "", "root@tcp(127.0.0.1)/"⟩).dbName = "kubernetes" ∧
    (prepareDSNConfig true ⟨"mydb", "", "root@tcp(127.0.0.1)/"⟩).dbName = "mydb" :=
  ⟨prepareDSN_spec.2.2.1 "user@tcp(10.0.0.1)/db" true (by decide),
   prepareDSN_spec.2.2.2.1 false ⟨"", "", "root@tcp(127.0.0.1)/"⟩ rfl,
   prepareDSN_spec.2.2.2.2 true ⟨"mydb", "", "root@tcp(127.0.0.1)/"⟩ (by decide)⟩

/-- C10: when the table already exists, setup executes no schema-creation
statement (only the migration loop runs); when every execution outcome is
success or the duplicate-index error 1061, setup completes and executes
everything it selects; and a non-1061 error on a schema statement or on a
selected migration statement aborts setup and is returned unchanged. -/
theorem setup_error_policy (n : Nat) (t : String) (exec : String → Option GoErr) :
    (setup true n t exec = execMigrations exec n 0 (getSchemaMigrations t)) ∧
    ((∀ s, exec s = none ∨ ∃ m, exec s = some (GoErr.mysqlError 1061 m)) →
      setup false n t exec =
        Except.ok (getSchema t ++ migrationsToRun n 0 (getSchemaMigrations t))) ∧
    (∀ (pre : List String) (s : String) (post : List String) (e : GoErr),
      getSchema t = pre ++ s :: post →
      (∀ u ∈ pre, exec u = none) → exec s = some e → isDuplicateIndexErr e = false →
      setup false n t exec = Except.error e) ∧
    (∀ (pre : List String) (s : String) (post : List String) (e : GoErr),
      migrationsToRun n 0 (getSchemaMigrations t) = pre ++ s :: post →
      (∀ u ∈ pre, exec u = none) → exec s = some e → isDuplicateIndexErr e = false →
      setup true n t exec = Except.error e) := by
  refine ⟨?_, ?_, ?_, ?_⟩
  · cases hm : execMigrations exec n 0 (getSchemaMigrations t) <;> simp [setup, hm]
  · intro hig
    have hschema : execStmts exec (getSchema t) = Except.ok (getSchema t) :=
      execStmts_ok exec _ fun s _ => hig s
    have hmig : execMigrations exec n 0 (getSchemaMigrations t) =
        Except.ok (migrationsToRun n 0 (getSchemaMigrations t)) := by
      rw [execMigrations_eq_execStmts]
      exact execStmts_ok exec _ fun s _ => hig s
    simp [setup, hschema, hmig]
  · intro pre s post e hdecomp hpre hs hd
    have habort : execStmts exec (getSchema t) = Except.error e := by
      rw [hdecomp]
      exact execStmts_error exec pre s post e hpre hs hd
    simp [setup, habort]
  · intro pre s post e hdecomp hpre hs hd
    have habort : execMigrations exec n 0 (getSchemaMigrations t) = Except.error e := by
      rw [execMigrations_eq_execStmts, hdecomp]
      exact execStmts_error exec pre s post e hpre hs hd
    simp [setup, habort]

/-- C10 witness: with every statement failing with the duplicate-index
error 1061 setup still completes and reports all statements executed,
while a connection error on the first schema statement aborts setup and
is returned. -/
theorem setup_error_policy_witness :
    setup false 2 "kine" (fun _ => some (GoErr.mysqlError 1061 "dup")) =
      Except.ok (getSchema "kine" ++ migrationsToRun 2 0 (getSchemaMigrations "kine")) ∧
    setup false 2 "kine" (fun _ => some (GoErr.other "connection closed")) =
      Except.error (GoErr.other "connection closed") := by
  constructor
  · exact (setup_error_policy 2 "kine" _).2.1 fun s => Or.inr ⟨"dup", rfl⟩
  · exact (setup_error_policy 2 "kine" _).2.2.1 []
      ("CREATE TABLE IF NOT EXISTS " ++ "kine" ++ createTableBody)
      (getSchema "kine").tail (GoErr.other "connection closed") rfl (by simp) rfl rfl

end KineMySQL
